import Mathlib

/-!
Shallow embedding of the karian_bank authentication core
(user entity state machine, auth use-cases, token middleware,
tenant client manager) and proofs about it.

Dates are modelled as natural numbers (milliseconds since epoch);
every method that calls `new Date()` takes the current time `now : Nat`
as an explicit argument.  External collaborators (password hashing,
repositories, the master database) are passed in as function arguments,
mirroring the dependency injection of the source.
-/

namespace KarianBank

/-- `UserRole` from src/domain/enums/user.enum.ts. -/
inductive UserRole where
  | SUPER_ADMIN | TENANT_ADMIN | MANAGER | TELLER | CUSTOMER
deriving DecidableEq, Repr

/-- `UserStatus` from src/domain/enums/user.enum.ts. -/
inductive UserStatus where
  | ACTIVE | INACTIVE | LOCKED | SUSPENDED
deriving DecidableEq, Repr

/-- `UserEntity` from src/domain/entities/user.entity.ts.
`email` holds the normalized value of the `Email` value object and
`phone` the optional `Phone` value. -/
structure UserEntity where
  id : String
  email : String
  password : String
  firstName : String
  lastName : String
  phone : Option String
  role : UserRole
  status : UserStatus
  emailVerified : Bool
  failedLoginAttempts : Nat
  lockedUntil : Option Nat
  createdAt : Nat
  updatedAt : Nat
  emailVerificationToken : Option String := none
  emailVerificationExpires : Option Nat := none
  passwordResetToken : Option String := none
  passwordResetExpires : Option Nat := none
  lastLoginAt : Option Nat := none
deriving DecidableEq, Repr

namespace UserEntity

/-- `UserEntity.MAX_FAILED_ATTEMPTS` (user.entity.ts line 10). -/
def MAX_FAILED_ATTEMPTS : Nat := 5

/-- `UserEntity.LOCK_DURATION_MS` (user.entity.ts line 11): 30 minutes. -/
def LOCK_DURATION_MS : Nat := 30 * 60 * 1000

/-- `lock()` (user.entity.ts lines 155-159): sets status LOCKED and
`lockedUntil = Date.now() + LOCK_DURATION_MS`. -/
def lock (u : UserEntity) (now : Nat) : UserEntity :=
  { u with status := UserStatus.LOCKED
           lockedUntil := some (now + LOCK_DURATION_MS)
           updatedAt := now }

/-- `unlock()` (user.entity.ts lines 164-170): only acts when status is
LOCKED; clears `lockedUntil` but not the failed-attempt counter. -/
def unlock (u : UserEntity) (now : Nat) : UserEntity :=
  if u.status = UserStatus.LOCKED then
    { u with status := UserStatus.ACTIVE
             lockedUntil := none
             updatedAt := now }
  else u

/-- `clearFailedAttempts()` (user.entity.ts lines 145-150). -/
def clearFailedAttempts (u : UserEntity) (now : Nat) : UserEntity :=
  if u.failedLoginAttempts > 0 then
    { u with failedLoginAttempts := 0, updatedAt := now }
  else u

/-- `incrementFailedAttempts()` (user.entity.ts lines 133-140): bumps the
counter and calls `lock()` whenever the new count reaches the maximum. -/
def incrementFailedAttempts (u : UserEntity) (now : Nat) : UserEntity :=
  let u' := { u with failedLoginAttempts := u.failedLoginAttempts + 1
                     updatedAt := now }
  if u'.failedLoginAttempts ≥ MAX_FAILED_ATTEMPTS then u'.lock now else u'

/-- `recordLogin()` (user.entity.ts lines 200-204). -/
def recordLogin (u : UserEntity) (now : Nat) : UserEntity :=
  let u' := { u with lastLoginAt := some now }
  { u'.clearFailedAttempts now with updatedAt := now }

/-- `changePassword(hashedPassword)` (user.entity.ts lines 80-84). -/
def changePassword (u : UserEntity) (hashedPassword : String) (now : Nat) :
    UserEntity :=
  { { u with password := hashedPassword }.clearFailedAttempts now with
      updatedAt := now }

/-- `resetPassword(hashedPassword)` (user.entity.ts lines 89-96): new hash,
clears reset-token fields, clears failed attempts, unlocks, touches
`updatedAt`. -/
def resetPassword (u : UserEntity) (hashedPassword : String) (now : Nat) :
    UserEntity :=
  let u1 := { u with password := hashedPassword
                     passwordResetToken := none
                     passwordResetExpires := none }
  let u2 := u1.clearFailedAttempts now
  let u3 := u2.unlock now
  { u3 with updatedAt := now }

/-- `setEmailVerificationToken(token, expiresAt)` (user.entity.ts 115-119). -/
def setEmailVerificationToken (u : UserEntity) (token : String)
    (expiresAt : Nat) (now : Nat) : UserEntity :=
  { u with emailVerificationToken := some token
           emailVerificationExpires := some expiresAt
           updatedAt := now }

/-- `setPasswordResetToken(token, expiresAt)` (user.entity.ts 124-128). -/
def setPasswordResetToken (u : UserEntity) (token : String)
    (expiresAt : Nat) (now : Nat) : UserEntity :=
  { u with passwordResetToken := some token
           passwordResetExpires := some expiresAt
           updatedAt := now }

/-- `isLocked()` (user.entity.ts lines 209-221).  The method both reads and
mutates (lazy unlock when `lockedUntil < new Date()`), so it is modelled as
returning the boolean together with the possibly-updated entity. -/
def isLocked (u : UserEntity) (now : Nat) : Bool × UserEntity :=
  if u.status ≠ UserStatus.LOCKED then (false, u)
  else
    match u.lockedUntil with
    | some lu => if lu < now then (false, u.unlock now) else (true, u)
    | none => (true, u)

/-- `canLogin()` (user.entity.ts lines 226-232): `status === ACTIVE &&
!this.isLocked() && this._emailVerified`, with the short-circuit of `&&`
(so `isLocked` only runs when the status is ACTIVE). -/
def canLogin (u : UserEntity) (now : Nat) : Bool × UserEntity :=
  if u.status ≠ UserStatus.ACTIVE then (false, u)
  else
    let (lk, u') := u.isLocked now
    (!lk && u'.emailVerified, u')

/-- `isPasswordResetTokenValid(token)` (user.entity.ts lines 248-254). -/
def isPasswordResetTokenValid (u : UserEntity) (token : String) (now : Nat) :
    Bool :=
  u.passwordResetToken == some token &&
    match u.passwordResetExpires with
    | some e => decide (e > now)
    | none => false

end UserEntity

/-! ### Value objects and the password service -/

/-- The ASCII whitespace characters matched by the JavaScript `\s` class
and removed by `String.trim` (the unicode space characters are outside the
inputs considered here). -/
def isJsSpace (c : Char) : Bool :=
  c == ' ' || c == '\t' || c == '\n' || c == '\r' ||
    c == Char.ofNat 11 || c == Char.ofNat 12

/-- JavaScript `String.trim()`: whitespace removed from both ends. -/
def jsTrim (l : List Char) : List Char :=
  ((l.dropWhile isJsSpace).reverse.dropWhile isJsSpace).reverse

/-- The anchored test `/^[^\s@]+@[^\s@]+\.[^\s@]+$/` of
`Email.isValid` (src/domain/value-objects/email.vo.ts): the string is
`a ++ "@" ++ b ++ "." ++ c` with `a`, `b`, `c` nonempty and free of
whitespace and `@` (so: exactly one `@`, preceded by at least one
character, and some `.` at least two positions after the `@` and before
the last position). -/
def emailFormatOk (l : List Char) : Bool :=
  let a := l.takeWhile (fun c => c != '@')
  match l.dropWhile (fun c => c != '@') with
  | [] => false
  | _ :: t =>
    !a.isEmpty && a.all (fun c => !(isJsSpace c)) &&
    t.all (fun c => !(isJsSpace c) && c != '@') &&
    (List.range t.length).any (fun j =>
      decide (1 ≤ j) && decide (j + 2 ≤ t.length) && (t.getD j ' ' == '.'))

namespace Email

/-- `Email.create` (email.vo.ts lines 8-16): trims, lowercases, validates
(format and length ≤ 255); `none` models the thrown
`Error('Invalid email format')`. -/
def create (email : String) : Option String :=
  let normalized := (jsTrim email.data).map Char.toLower
  if emailFormatOk normalized && decide (normalized.length ≤ 255) then
    some (String.mk normalized)
  else none

end Email

/-- The anchored test `/^\+[1-9]\d\x7b1,14\x7d$/` of `Phone.isValid`
(src/domain/value-objects/phone.vo.ts). -/
def phoneFormatOk : List Char → Bool
  | '+' :: d :: ds =>
      ('1' ≤ d && d ≤ '9') && ds.all Char.isDigit &&
        decide (1 ≤ ds.length) && decide (ds.length ≤ 14)
  | _ => false

namespace Phone

/-- `Phone.create` (phone.vo.ts): trims then validates; `none` models the
thrown format error. -/
def create (phone : String) : Option String :=
  let normalized := jsTrim phone.data
  if phoneFormatOk normalized then some (String.mk normalized) else none

end Phone

/-- Result type of `validateStrength` in
src/services/adapters/password.service.adapter.ts. -/
structure StrengthResult where
  isValid : Bool
  errors : List String
deriving DecidableEq, Repr

/-- The special-character class `/[!@#$%^&*(),.?":\x7b\x7d|<>]/` of
`validateStrength`. -/
def specialChars : List Char := "!@#$%^&*(),.?\":\x7b\x7d|<>".data

/-- `BcryptPasswordService.validateStrength`
(password.service.adapter.ts lines 14-22): pushes one message per
violated rule, in source order, and is valid iff no message was pushed. -/
def validateStrength (password : String) : StrengthResult :=
  let errors :=
    (if password.length < 8 then ["At least 8 characters"] else []) ++
    (if !(password.data.any fun c => 'A' ≤ c && c ≤ 'Z') then
        ["At least one uppercase letter"] else []) ++
    (if !(password.data.any fun c => 'a' ≤ c && c ≤ 'z') then
        ["At least one lowercase letter"] else []) ++
    (if !(password.data.any fun c => '0' ≤ c && c ≤ '9') then
        ["At least one number"] else []) ++
    (if !(password.data.any fun c => specialChars.contains c) then
        ["At least one special character"] else [])
  ⟨errors.length == 0, errors⟩

/-! ### Application errors (utils/errors, app.error.ts) -/

/-- The typed errors thrown by the embedded flows.  `emailSendError`
stands for whatever rejection the mail transport produces (it is not an
`AppError` subclass in the source; only its propagation matters here). -/
inductive AppError where
  | validationError (msg : String)
  | unauthorizedError (msg : String) (code : Option String)
  | forbiddenError (msg : String)
  | badRequestError (msg : String)
  | notFoundError (msg : String)
  | tenantNotFoundError (slug : String)
  | databaseError (msg : String)
  | emailSendError
deriving DecidableEq, Repr

/-! ### Login use-case -/

instance {ε α : Type} [DecidableEq ε] [DecidableEq α] :
    DecidableEq (Except ε α) := fun x y =>
  match x, y with
  | .ok a, .ok b =>
      if h : a = b then isTrue (by rw [h]) else isFalse (by simp [h])
  | .error a, .error b =>
      if h : a = b then isTrue (by rw [h]) else isFalse (by simp [h])
  | .ok _, .error _ => isFalse (by simp)
  | .error _, .ok _ => isFalse (by simp)

/-- Outcome of one `LoginUserUseCase.execute` run: the returned user view
(or error) and the sequence of user states passed to
`userRepository.save`. -/
structure LoginOutcome where
  result : Except AppError UserEntity
  saved : List UserEntity
deriving DecidableEq, Repr

/-- `LoginUserUseCase.execute`
(src/application/use-cases/auth/login-user.use-case.ts lines 20-67).
The repository and the bcrypt comparison are injected as functions.
Source order: email VO, user lookup, password verification (with
increment + save on mismatch), lock check, canLogin check, recordLogin +
save, token issue. -/
def loginExecute (findByEmail : String → Option UserEntity)
    (verify : String → String → Bool)
    (dtoEmail dtoPassword : String) (now : Nat) : LoginOutcome :=
  match Email.create dtoEmail with
  | none => ⟨.error (.validationError "Invalid email format"), []⟩
  | some email =>
    match findByEmail email with
    | none => ⟨.error (.unauthorizedError "Invalid credentials" none), []⟩
    | some user =>
      if verify dtoPassword user.password then
        let lk := user.isLocked now
        if lk.1 then
          ⟨.error (.forbiddenError "Account is locked. Please try again later."),
            []⟩
        else
          let cl := lk.2.canLogin now
          if cl.1 then
            let u3 := cl.2.recordLogin now
            ⟨.ok u3, [u3]⟩
          else if !cl.2.emailVerified then
            ⟨.error (.forbiddenError
              "Email not verified. Please verify your email first."), []⟩
          else
            ⟨.error (.forbiddenError "Account is not active."), []⟩
      else
        let u' := user.incrementFailedAttempts now
        ⟨.error (.unauthorizedError "Invalid credentials" none), [u']⟩

/-! ### Tenants, forgot-password and registration -/

/-- Tenant status values of the master schema. -/
inductive TenantStatus where
  | ACTIVE | INACTIVE | SUSPENDED | DELETED
deriving DecidableEq, Repr

/-- A row of `masterDb.tenant`. -/
structure Tenant where
  id : String
  slug : String
  databaseUrl : String
  status : TenantStatus
deriving DecidableEq, Repr

/-- Outcome of a use-case run returning `void`: the result (or error) and
the user states passed to `userRepository.save`. -/
structure VoidOutcome where
  result : Except AppError Unit
  saved : List UserEntity
deriving DecidableEq, Repr

/-- `ForgotPasswordUseCase.execute`
(src/application/use-cases/auth/forgot-password.use-case.ts lines 15-43).
`tenantBySlug` is the `masterDb.tenant.findUnique` result for
`dto.tenantSlug`; `genToken` the `randomBytes(32).toString('hex')` value;
`sendOk` tells whether `emailService.sendPasswordResetEmail` resolves.
The send is not wrapped in try/catch in the source, so a send failure
propagates after the user (with the fresh reset token) was saved. -/
def forgotPasswordExecute (tenantBySlug : Option Tenant)
    (findByEmail : String → Option UserEntity)
    (dtoEmail : String) (genToken : String) (now : Nat) (sendOk : Bool) :
    VoidOutcome :=
  match Email.create dtoEmail with
  | none => ⟨.error (.validationError "Invalid email format"), []⟩
  | some email =>
    match tenantBySlug with
    | none => ⟨.ok (), []⟩
    | some tenant =>
      if tenant.status ≠ TenantStatus.ACTIVE then ⟨.ok (), []⟩
      else
        match findByEmail email with
        | none => ⟨.ok (), []⟩
        | some user =>
          let u' := user.setPasswordResetToken genToken (now + 3600000) now
          if sendOk then ⟨.ok (), [u']⟩
          else ⟨.error .emailSendError, [u']⟩

/-- Outcome of `RegisterUserUseCase.execute`: the returned user id (or
error) and the user states passed to `save`. -/
structure RegisterOutcome where
  result : Except AppError String
  saved : List UserEntity
deriving DecidableEq, Repr

/-- `RegisterUserUseCase.execute`
(src/application/use-cases/auth/register-user.use-case.ts lines 24-85).
`existsEmail` is `userRepository.exists`, `hash` the bcrypt hash oracle,
`genId`/`genToken` the `randomBytes` draws.  The verification-email send
(step 8) is not wrapped in try/catch, so its failure propagates after the
user was saved in step 7. -/
def registerExecute (existsEmail : String → Bool) (hash : String → String)
    (genId genToken : String)
    (dtoEmail dtoPassword dtoFirstName dtoLastName : String)
    (dtoPhone : Option String) (dtoRole : UserRole)
    (now : Nat) (sendOk : Bool) : RegisterOutcome :=
  match Email.create dtoEmail with
  | none => ⟨.error (.validationError "Invalid email format"), []⟩
  | some email =>
    let phoneVo : Except AppError (Option String) :=
      match dtoPhone with
      | none => .ok none
      | some p =>
        match Phone.create p with
        | none => .error (.validationError
            "Invalid phone format. Expected format: +[country code][number]")
        | some v => .ok (some v)
    match phoneVo with
    | .error e => ⟨.error e, []⟩
    | .ok phone =>
      if existsEmail email then
        ⟨.error (.badRequestError "User with this email already exists"), []⟩
      else
        let pv := validateStrength dtoPassword
        if !pv.isValid then
          ⟨.error (.badRequestError
            ("Weak password: " ++ String.intercalate ", " pv.errors)), []⟩
        else
          let user : UserEntity :=
            { id := genId
              email := email
              password := hash dtoPassword
              firstName := dtoFirstName
              lastName := dtoLastName
              phone := phone
              role := dtoRole
              status := UserStatus.ACTIVE
              emailVerified := false
              failedLoginAttempts := 0
              lockedUntil := none
              createdAt := now
              updatedAt := now }
          let user' :=
            user.setEmailVerificationToken genToken
              (now + 24 * 60 * 60 * 1000) now
          if sendOk then ⟨.ok user'.id, [user']⟩
          else ⟨.error .emailSendError, [user']⟩

/-- `AuthService.registerUser` (the legacy service path, same repository).
Its verification-email send IS wrapped in try/catch with the comment
"Don't fail registration if email fails", so `sendOk` cannot influence
the result.  No password-strength validation happens on this path. -/
def authServiceRegisterUser (tenantBySlug : Option Tenant)
    (findByEmail : String → Option UserEntity) (hash : String → String)
    (genId genToken : String)
    (dtoEmail dtoPassword dtoFirstName dtoLastName : String)
    (dtoPhone : Option String) (dtoRole : UserRole) (dtoTenantSlug : String)
    (now : Nat) (sendOk : Bool) : RegisterOutcome :=
  match tenantBySlug with
  | none => ⟨.error (.tenantNotFoundError dtoTenantSlug), []⟩
  | some tenant =>
    if tenant.status ≠ TenantStatus.ACTIVE then
      ⟨.error (.tenantNotFoundError dtoTenantSlug), []⟩
    else
      match findByEmail dtoEmail with
      | some _ => ⟨.error (.badRequestError "Email already registered"), []⟩
      | none =>
        let user : UserEntity :=
          { id := genId
            email := dtoEmail
            password := hash dtoPassword
            firstName := dtoFirstName
            lastName := dtoLastName
            phone := dtoPhone
            role := dtoRole
            status := UserStatus.ACTIVE
            emailVerified := false
            failedLoginAttempts := 0
            lockedUntil := none
            createdAt := now
            updatedAt := now
            emailVerificationToken := some genToken
            emailVerificationExpires := some (now + 24 * 60 * 60 * 1000) }
        -- the try/catch around the send swallows a failure: `sendOk`
        -- does not change the outcome
        ⟨.ok user.id, [user]⟩

/-! ### Reset-password use-case -/

/-- `ResetPasswordUseCase.execute`
(src/application/use-cases/auth/reset-password.use-case.ts lines 13-36).
`tenantById` is the master lookup for `dto.tenantId`, `findByResetToken`
the repository lookup, `hash` the bcrypt oracle. -/
def resetPasswordExecute (tenantById : Option Tenant)
    (findByResetToken : String → Option UserEntity) (hash : String → String)
    (dtoToken dtoNewPassword : String) (now : Nat) : VoidOutcome :=
  match tenantById with
  | none => ⟨.error (.unauthorizedError "Invalid tenant" none), []⟩
  | some tenant =>
    if tenant.status ≠ TenantStatus.ACTIVE then
      ⟨.error (.unauthorizedError "Invalid tenant" none), []⟩
    else
      match findByResetToken dtoToken with
      | none =>
        ⟨.error (.badRequestError "Invalid or expired password reset token"),
          []⟩
      | some user =>
        if !user.isPasswordResetTokenValid dtoToken now then
          ⟨.error (.badRequestError "Invalid or expired password reset token"),
            []⟩
        else
          let pv := validateStrength dtoNewPassword
          if !pv.isValid then
            ⟨.error (.badRequestError
              ("Weak password: " ++ String.intercalate ", " pv.errors)), []⟩
          else
            let u' := user.resetPassword (hash dtoNewPassword) now
            ⟨.ok (), [u']⟩

/-! ### Token blacklist and the authenticate middleware -/

/-- Decoded JWT claims (`JWTPayload` in utils/jwt). -/
structure JWTPayload where
  userId : String
  tenantId : String
  role : String
  email : String
deriving DecidableEq, Repr

/-- The revocation store: the keys and TTLs held in the Redis blacklist
database (src/lib/tokenBlacklist.ts). -/
abbrev BlacklistStore := List (String × Nat)

/-- `TokenBlacklistService.blacklistToken(token, expiresIn)`
(tokenBlacklist.ts lines 46-50): `SETEX blacklist:<token> expiresIn 1`. -/
def blacklistToken (store : BlacklistStore) (token : String)
    (expiresIn : Nat) : BlacklistStore :=
  ("blacklist:" ++ token, expiresIn) :: store

/-- `TokenBlacklistService.isTokenBlacklisted(token)`
(tokenBlacklist.ts lines 55-59): `GET blacklist:<token> !== null`. -/
def isTokenBlacklisted (store : BlacklistStore) (token : String) : Bool :=
  (store.find? (fun p => p.1 == "blacklist:" ++ token)).isSome

/-- The logout controller (`AuthController.logout`): blacklists the
presented access token for the configured access-token lifetime. -/
def logoutExecute (store : BlacklistStore) (accessToken : String)
    (expirySeconds : Nat) : BlacklistStore :=
  blacklistToken store accessToken expirySeconds

/-- The `authenticate` middleware (src/api/middleware/auth.ts lines
17-42): header shape check, `verifyAccessToken`, then the request is
treated as authenticated (`req.user = payload; next()`).  The middleware
has access to the revocation store (`blacklist`), but the source never
consults it, so the argument is unused — exactly mirroring the code. -/
def authenticate (authHeader : Option String)
    (verifyAccessToken : String → Except AppError JWTPayload)
    (blacklist : BlacklistStore) : Except AppError JWTPayload :=
  match authHeader with
  | none => .error (.unauthorizedError "No token provided"
      (some "MISSING_TOKEN"))
  | some h =>
    -- `authHeader.startsWith('Bearer ')` and `authHeader.substring(7)`,
    -- expressed over the character sequence
    if h.data.take 7 = "Bearer ".data then
      verifyAccessToken (String.mk (h.data.drop 7))
    else
      .error (.unauthorizedError "No token provided" (some "MISSING_TOKEN"))

/-! ### Tenant client manager (src/unnamed/part_015, TenantClientManager)

The `Map` of Prisma clients is modelled as an insertion-ordered
association list (JavaScript `Map` iteration order is insertion order;
`keys().next().value` is the oldest-inserted key).  Client objects are
identified by the counter value used when they were created.  The
eviction `void this.disconnectClient(firstKey)` is fire-and-forget: the
`await client.$disconnect()` suspends before `this.clients.delete`, so
the removal is modelled as a pending disconnection, applied only when
`resolvePending` runs the suspended continuation. -/

/-- State of the `TenantClientManager` singleton. -/
structure ManagerState where
  clients : List (String × Nat)
  nextClientId : Nat
  pending : List String
deriving DecidableEq, Repr

/-- `maxClients = 10` (the fixed cache capacity). -/
def maxClients : Nat := 10

/-- `this.clients.get(tenantId)` / `has`. -/
def lookupClient (cs : List (String × Nat)) (tenantId : String) :
    Option Nat :=
  (cs.find? (fun p => p.1 == tenantId)).map Prod.snd

/-- `this.clients.delete(tenantId)` (`Map` keys are unique, so removing
every pair with the key equals deleting the single entry). -/
def deleteClient (cs : List (String × Nat)) (tenantId : String) :
    List (String × Nat) :=
  cs.filter (fun p => p.1 != tenantId)

/-- `TenantClientManager.getClient(tenantId, databaseUrl)` (part_015
lines 384-428).  Returns the handle, the new state, and whether a new
client was constructed.  On a cache miss a client is created; if the
cache is at (or above) capacity the oldest-inserted key is scheduled for
asynchronous disconnection (not yet removed); the new entry is then
inserted at the end. -/
def getClient (s : ManagerState) (tenantId : String) :
    Nat × ManagerState × Bool :=
  match lookupClient s.clients tenantId with
  | some c => (c, s, false)
  | none =>
    let c := s.nextClientId
    let pending' :=
      if s.clients.length ≥ maxClients then
        match s.clients with
        | [] => s.pending
        | p :: _ => s.pending ++ [p.1]
      else s.pending
    (c,
     { clients := s.clients ++ [(tenantId, c)]
       nextClientId := s.nextClientId + 1
       pending := pending' },
     true)

/-- Runs the suspended continuation of the earliest scheduled
`disconnectClient`: after `$disconnect()` resolves, the entry is deleted
from the map. -/
def resolvePending (s : ManagerState) : ManagerState :=
  match s.pending with
  | [] => s
  | t :: rest => { s with clients := deleteClient s.clients t
                          pending := rest }

/-- `TenantClientManager.disconnectClient(tenantId)` awaited to
completion (part_015 lines 433-440). -/
def disconnectClient (s : ManagerState) (tenantId : String) : ManagerState :=
  if (lookupClient s.clients tenantId).isSome then
    { s with clients := deleteClient s.clients tenantId }
  else s

/-! ### Concrete fixtures used by witnesses and counterexamples -/

/-- A user currently locked (5 failed attempts, lock expiring at
t = 2000000). -/
def lockedUser : UserEntity :=
  { id := "u1"
    email := "alice@bank.com"
    password := "hashedpw"
    firstName := "Alice"
    lastName := "Smith"
    phone := none
    role := UserRole.CUSTOMER
    status := UserStatus.LOCKED
    emailVerified := true
    failedLoginAttempts := 5
    lockedUntil := some 2000000
    createdAt := 0
    updatedAt := 0 }

/-- A verified active user with a clean failed-attempt counter. -/
def activeUser : UserEntity :=
  { id := "u2"
    email := "alice@bank.com"
    password := "hashedpw"
    firstName := "Alice"
    lastName := "Smith"
    phone := none
    role := UserRole.CUSTOMER
    status := UserStatus.ACTIVE
    emailVerified := true
    failedLoginAttempts := 0
    lockedUntil := none
    createdAt := 0
    updatedAt := 0 }

/-- A suspended user holding a password-reset token valid until
t = 2000000. -/
def suspendedUser : UserEntity :=
  { id := "u3"
    email := "carol@bank.com"
    password := "oldhash"
    firstName := "Carol"
    lastName := "Jones"
    phone := none
    role := UserRole.TELLER
    status := UserStatus.SUSPENDED
    emailVerified := true
    failedLoginAttempts := 3
    lockedUntil := some 500
    createdAt := 0
    updatedAt := 0
    passwordResetToken := some "rtok"
    passwordResetExpires := some 2000000 }

/-- An active tenant row. -/
def acmeTenant : Tenant :=
  { id := "t1", slug := "acme", databaseUrl := "db", status := TenantStatus.ACTIVE }

/-! ## Theorems -/

/-- C3 counterexample: a user locked until t = 2000000, checked at
t = 3000000, is lazily unlocked (status ACTIVE, `lockedUntil` cleared),
but `failedLoginAttempts` stays at 5 — it is NOT reset to 0 by the
unlock, contrary to the claim. -/
theorem lazy_unlock_keeps_failed_attempts_cex :
    (lockedUser.isLocked 3000000).1 = false ∧
    (lockedUser.isLocked 3000000).2.status = UserStatus.ACTIVE ∧
    (lockedUser.isLocked 3000000).2.lockedUntil = none ∧
    (lockedUser.isLocked 3000000).2.failedLoginAttempts = 5 ∧
    ¬ (lockedUser.isLocked 3000000).2.failedLoginAttempts = 0 := by
  decide

/-- C3 (amended): for every user with status LOCKED and `lockedUntil`
strictly in the past, the very next `isLocked` check treats the account
as unlocked — status returns to ACTIVE and `lockedUntil` becomes null —
but `failedLoginAttempts` keeps its previous value (the lazy unlock does
not reset it). -/
theorem lazy_unlock_behavior (u : UserEntity) (lu now : Nat)
    (hstat : u.status = UserStatus.LOCKED) (hlu : u.lockedUntil = some lu)
    (hpast : lu < now) :
    (u.isLocked now).1 = false ∧
    (u.isLocked now).2.status = UserStatus.ACTIVE ∧
    (u.isLocked now).2.lockedUntil = none ∧
    (u.isLocked now).2.failedLoginAttempts = u.failedLoginAttempts := by
  simp [UserEntity.isLocked, UserEntity.unlock, hstat, hlu, hpast]

/-- Witness for `lazy_unlock_behavior` at the concrete locked user. -/
theorem lazy_unlock_behavior_witness :
    (lockedUser.isLocked 3000000).1 = false ∧
    (lockedUser.isLocked 3000000).2.status = UserStatus.ACTIVE ∧
    (lockedUser.isLocked 3000000).2.lockedUntil = none ∧
    (lockedUser.isLocked 3000000).2.failedLoginAttempts =
      lockedUser.failedLoginAttempts :=
  lazy_unlock_behavior lockedUser 2000000 3000000 (by decide) (by decide)
    (by decide)

/-- C4: logging out an access token blacklists it, yet the `authenticate`
middleware never consults the blacklist: a request bearing the revoked
(cryptographically valid, unexpired) token is still treated as
authenticated instead of failing with TokenRevoked. -/
theorem authenticate_ignores_revocation_bug :
    isTokenBlacklisted (logoutExecute [] "tok123" 900) "tok123" = true ∧
    authenticate (some "Bearer tok123")
      (fun t => if t = "tok123" then
          .ok ⟨"u1", "t1", "CUSTOMER", "alice@bank.com"⟩
        else .error (.unauthorizedError "Invalid token" (some "INVALID_TOKEN")))
      (logoutExecute [] "tok123" 900)
      = .ok ⟨"u1", "t1", "CUSTOMER", "alice@bank.com"⟩ := by
  decide

/-- C5: a `getClient` call whose tenant id is already cached returns the
cached handle, leaves the manager state unchanged and opens no new
connection; a second call with the same tenant id returns the identical
handle. -/
theorem getClient_cached_idempotent (s : ManagerState) (tid : String)
    (c : Nat) (h : lookupClient s.clients tid = some c) :
    getClient s tid = (c, s, false) ∧
    (getClient (getClient s tid).2.1 tid).1 = (getClient s tid).1 := by
  have h1 : getClient s tid = (c, s, false) := by simp [getClient, h]
  exact ⟨h1, by simp [h1]⟩

/-- Witness for `getClient_cached_idempotent` on a one-entry cache. -/
theorem getClient_cached_idempotent_witness :
    getClient ⟨[("acme", 0)], 1, []⟩ "acme" = (0, ⟨[("acme", 0)], 1, []⟩, false) ∧
    (getClient (getClient ⟨[("acme", 0)], 1, []⟩ "acme").2.1 "acme").1 =
      (getClient ⟨[("acme", 0)], 1, []⟩ "acme").1 :=
  getClient_cached_idempotent ⟨[("acme", 0)], 1, []⟩ "acme" 0 (by decide)

/-- C8: with a failing mail transport, `RegisterUserUseCase.execute`
persists the new user (saved ids = ["id1"]) and then propagates the
email-send rejection, so the registration call fails instead of
returning the user id — while the sibling `AuthService.registerUser`,
whose send is try/caught ("Don't fail registration if email fails"),
succeeds under the same failure. -/
theorem register_email_failure_bug :
    (registerExecute (fun _ => false) (fun p => "h:" ++ p) "id1" "vtok"
        "alice@bank.com" "Aa1!aaaa" "Alice" "Smith" none UserRole.CUSTOMER
        1000 false).result = .error .emailSendError ∧
    ((registerExecute (fun _ => false) (fun p => "h:" ++ p) "id1" "vtok"
        "alice@bank.com" "Aa1!aaaa" "Alice" "Smith" none UserRole.CUSTOMER
        1000 false).saved.map (fun x => x.id)) = ["id1"] ∧
    (authServiceRegisterUser (some acmeTenant) (fun _ => none)
        (fun p => "h:" ++ p) "id1" "vtok"
        "alice@bank.com" "Aa1!aaaa" "Alice" "Smith" none UserRole.CUSTOMER
        "acme" 1000 false).result = .ok "id1" := by
  decide

/-- C1 counterexample: a wrong password submitted against a locked
account (lock expiring at t = 2000000, attempt at t = 1000) does NOT fail
with AccountLocked — it fails with InvalidCredentials — and it increments
`failedLoginAttempts` to 6 and persists the user (re-locked until
t = 1801000), because the use-case verifies the password before checking
the lock. -/
theorem login_locked_wrong_password_increments_cex :
    (loginExecute (fun e => if e = "alice@bank.com" then some lockedUser else none)
        (fun _ _ => false) "alice@bank.com" "wrongpw" 1000).result
      = .error (.unauthorizedError "Invalid credentials" none) ∧
    (loginExecute (fun e => if e = "alice@bank.com" then some lockedUser else none)
        (fun _ _ => false) "alice@bank.com" "wrongpw" 1000).saved.map
        (fun x => (x.failedLoginAttempts, x.lockedUntil))
      = [(6, some 1801000)] := by
  decide

/-- C1 (amended): in the login use-case the password is verified BEFORE
the lock check.  For a user whose account is locked (status LOCKED with
`lockedUntil` not in the past): a correct password fails AccountLocked
with nothing persisted, while a wrong password increments
`failedLoginAttempts`, persists the updated user, and fails
InvalidCredentials. -/
theorem login_locked_checks_password_first
    (findByEmail : String → Option UserEntity)
    (verify : String → String → Bool)
    (dtoEmail dtoPassword em : String) (u : UserEntity) (lu now : Nat)
    (hemail : Email.create dtoEmail = some em)
    (hfind : findByEmail em = some u)
    (hstat : u.status = UserStatus.LOCKED)
    (hlu : u.lockedUntil = some lu)
    (hfuture : ¬ lu < now) :
    loginExecute findByEmail verify dtoEmail dtoPassword now =
      (if verify dtoPassword u.password then
        ⟨.error (.forbiddenError "Account is locked. Please try again later."),
          []⟩
       else
        ⟨.error (.unauthorizedError "Invalid credentials" none),
          [u.incrementFailedAttempts now]⟩) ∧
    (u.incrementFailedAttempts now).failedLoginAttempts =
      u.failedLoginAttempts + 1 := by
  constructor
  · cases hv : verify dtoPassword u.password <;>
      simp [loginExecute, hemail, hfind, hv, UserEntity.isLocked, hstat, hlu,
        hfuture]
  · simp only [UserEntity.incrementFailedAttempts, UserEntity.lock]
    split <;> simp

/-- Witness for `login_locked_checks_password_first`: wrong password at
the concrete locked user. -/
theorem login_locked_checks_password_first_witness :
    loginExecute (fun e => if e = "alice@bank.com" then some lockedUser else none)
        (fun _ _ => false) "alice@bank.com" "wrongpw" 1000 =
      ⟨.error (.unauthorizedError "Invalid credentials" none),
        [lockedUser.incrementFailedAttempts 1000]⟩ := by
  have h := login_locked_checks_password_first
    (fun e => if e = "alice@bank.com" then some lockedUser else none)
    (fun _ _ => false) "alice@bank.com" "wrongpw" "alice@bank.com"
    lockedUser 2000000 1000 (by decide) (by decide) (by decide) (by decide)
    (by decide)
  simpa using h.1

/-- C2 counterexample, run through the login use-case with a wrong
password each time: after 5 failed attempts (at times 1..5) the account
is LOCKED with `lockedUntil = 1800005`; a 6th failed attempt at time 6
DOES extend the lock — `lockedUntil` becomes 1800006 — contrary to the
claim that the 6th attempt leaves it unchanged. -/
theorem lockout_sixth_attempt_extends_cex :
    (let step := fun (u : UserEntity) (t : Nat) =>
      ((loginExecute (fun _ => some u) (fun _ _ => false) "a@b.cd" "pw" t).saved).getD
        0 u
     let u5 := step (step (step (step (step activeUser 1) 2) 3) 4) 5
     u5.status = UserStatus.LOCKED ∧
     u5.lockedUntil = some 1800005 ∧
     (step u5 6).lockedUntil = some 1800006 ∧
     ¬ (step u5 6).lockedUntil = u5.lockedUntil) := by
  decide

/-- C2 (amended): a user starting ACTIVE with `failedLoginAttempts = 0`
is LOCKED after exactly 5 consecutive failed attempts, with
`lockedUntil = (time of 5th attempt) + 30 min` (strictly in the future);
but a 6th failed attempt re-runs `lock()` and RESETS `lockedUntil` to
(time of 6th attempt) + 30 min, extending the lock whenever time has
advanced. -/
theorem lockout_after_five_failed_attempts (u0 : UserEntity)
    (t1 t2 t3 t4 t5 t6 : Nat)
    (hact : u0.status = UserStatus.ACTIVE)
    (h0 : u0.failedLoginAttempts = 0) :
    (let u5 := ((((u0.incrementFailedAttempts t1).incrementFailedAttempts
        t2).incrementFailedAttempts t3).incrementFailedAttempts
        t4).incrementFailedAttempts t5
     u5.status = UserStatus.LOCKED ∧
     u5.lockedUntil = some (t5 + UserEntity.LOCK_DURATION_MS) ∧
     t5 < t5 + UserEntity.LOCK_DURATION_MS ∧
     u5.failedLoginAttempts = 5 ∧
     (u5.incrementFailedAttempts t6).lockedUntil =
       some (t6 + UserEntity.LOCK_DURATION_MS)) := by
  simp [UserEntity.incrementFailedAttempts, UserEntity.lock,
    UserEntity.MAX_FAILED_ATTEMPTS, UserEntity.LOCK_DURATION_MS, h0]

/-- Witness for `lockout_after_five_failed_attempts` at the concrete
active user and times 1..6. -/
theorem lockout_after_five_failed_attempts_witness :
    (let u5 := ((((activeUser.incrementFailedAttempts
        1).incrementFailedAttempts 2).incrementFailedAttempts
        3).incrementFailedAttempts 4).incrementFailedAttempts 5
     u5.status = UserStatus.LOCKED ∧
     u5.lockedUntil = some (5 + UserEntity.LOCK_DURATION_MS) ∧
     5 < 5 + UserEntity.LOCK_DURATION_MS ∧
     u5.failedLoginAttempts = 5 ∧
     (u5.incrementFailedAttempts 6).lockedUntil =
       some (6 + UserEntity.LOCK_DURATION_MS)) :=
  lockout_after_five_failed_attempts activeUser 1 2 3 4 5 6 (by decide)
    (by decide)

/-- C6 counterexample: inserting an 11th distinct tenant into a full
10-entry cache leaves the cache with 11 entries immediately after the
call — the oldest entry ("t0") is still present alongside the new one,
because its removal only happens when the fire-and-forget disconnect
resolves.  The claimed invariant (never more than 10 entries, slot freed
before the new entry is added) is violated. -/
theorem getClient_transient_capacity_overrun_cex :
    (getClient ⟨[("t0", 0), ("t1", 1), ("t2", 2), ("t3", 3), ("t4", 4),
        ("t5", 5), ("t6", 6), ("t7", 7), ("t8", 8), ("t9", 9)], 10, []⟩
        "tx").2.1.clients.length = maxClients + 1 ∧
    lookupClient (getClient ⟨[("t0", 0), ("t1", 1), ("t2", 2), ("t3", 3),
        ("t4", 4), ("t5", 5), ("t6", 6), ("t7", 7), ("t8", 8), ("t9", 9)],
        10, []⟩ "tx").2.1.clients "t0" = some 0 ∧
    lookupClient (getClient ⟨[("t0", 0), ("t1", 1), ("t2", 2), ("t3", 3),
        ("t4", 4), ("t5", 5), ("t6", 6), ("t7", 7), ("t8", 8), ("t9", 9)],
        10, []⟩ "tx").2.1.clients "tx" = some 10 := by
  decide

/-- C6 (amended): when `getClient` inserts into a cache holding
`maxClients` entries, it schedules the oldest-inserted entry for
asynchronous disconnection and adds the new entry BEFORE the old slot is
freed, so the cache transiently holds `maxClients + 1` entries; once the
scheduled disconnect resolves, the oldest-inserted entry is removed and
the cache is back to `maxClients` entries. -/
theorem getClient_eviction_async (k : String) (v : Nat)
    (rest : List (String × Nat)) (nid : Nat) (tid : String)
    (hlen : ((k, v) :: rest).length = maxClients)
    (hnodup : (((k, v) :: rest).map Prod.fst).Nodup)
    (hmiss : lookupClient ((k, v) :: rest) tid = none) :
    (getClient ⟨(k, v) :: rest, nid, []⟩ tid).2.1.clients =
      ((k, v) :: rest) ++ [(tid, nid)] ∧
    (getClient ⟨(k, v) :: rest, nid, []⟩ tid).2.1.clients.length =
      maxClients + 1 ∧
    (getClient ⟨(k, v) :: rest, nid, []⟩ tid).2.1.pending = [k] ∧
    (resolvePending (getClient ⟨(k, v) :: rest, nid, []⟩ tid).2.1).clients =
      rest ++ [(tid, nid)] ∧
    (resolvePending (getClient ⟨(k, v) :: rest, nid, []⟩ tid).2.1).clients.length
      = maxClients := by
  have hlen' : rest.length + 1 = maxClients := by simpa using hlen
  have hfind : List.find? (fun p => p.1 == tid) ((k, v) :: rest) = none := by
    simpa [lookupClient] using hmiss
  have hall := List.find?_eq_none.mp hfind
  have hktid : k ≠ tid := by
    have := hall (k, v) (List.mem_cons_self _ _)
    simpa using this
  have hkx : ∀ x : Nat, (k, x) ∉ rest := by
    have h := by simpa using hnodup
    exact h.1
  have hrest : rest.filter (fun p => p.1 != k) = rest := by
    rw [List.filter_eq_self]
    intro p hp
    obtain ⟨a, b⟩ := p
    have hpk : a ≠ k := by
      intro he
      exact hkx b (he ▸ hp)
    simpa using hpk
  have h1 : getClient ⟨(k, v) :: rest, nid, []⟩ tid =
      (nid, ⟨((k, v) :: rest) ++ [(tid, nid)], nid + 1, [k]⟩, true) := by
    have hge : maxClients ≤ rest.length + 1 := le_of_eq hlen'.symm
    simp [getClient, lookupClient, hfind, hge]
  refine ⟨by rw [h1], ?_, by rw [h1], ?_, ?_⟩
  · rw [h1]
    simp [hlen.symm]
  · rw [h1]
    simp only [resolvePending, deleteClient, List.filter_append,
      List.filter_cons]
    have hkk : ((k, v).1 != k) = false := by simp
    have htid : ((tid, nid).1 != k) = true := by
      simp [Ne.symm hktid]
    simp [hkk, htid, hrest]
  · rw [h1]
    simp only [resolvePending, deleteClient, List.filter_append,
      List.filter_cons]
    have hkk : ((k, v).1 != k) = false := by simp
    have htid : ((tid, nid).1 != k) = true := by
      simp [Ne.symm hktid]
    simp [hkk, htid, hrest]
    have : rest.length + 1 = maxClients := by simpa using hlen
    omega

/-- Witness for `getClient_eviction_async` on a full concrete cache. -/
theorem getClient_eviction_async_witness :
    (getClient ⟨("t0", 0) :: [("t1", 1), ("t2", 2), ("t3", 3), ("t4", 4),
        ("t5", 5), ("t6", 6), ("t7", 7), ("t8", 8), ("t9", 9)], 10, []⟩
        "tx").2.1.clients =
      (("t0", 0) :: [("t1", 1), ("t2", 2), ("t3", 3), ("t4", 4), ("t5", 5),
        ("t6", 6), ("t7", 7), ("t8", 8), ("t9", 9)]) ++ [("tx", 10)] ∧
    (getClient ⟨("t0", 0) :: [("t1", 1), ("t2", 2), ("t3", 3), ("t4", 4),
        ("t5", 5), ("t6", 6), ("t7", 7), ("t8", 8), ("t9", 9)], 10, []⟩
        "tx").2.1.clients.length = maxClients + 1 ∧
    (getClient ⟨("t0", 0) :: [("t1", 1), ("t2", 2), ("t3", 3), ("t4", 4),
        ("t5", 5), ("t6", 6), ("t7", 7), ("t8", 8), ("t9", 9)], 10, []⟩
        "tx").2.1.pending = ["t0"] ∧
    (resolvePending (getClient ⟨("t0", 0) :: [("t1", 1), ("t2", 2),
        ("t3", 3), ("t4", 4), ("t5", 5), ("t6", 6), ("t7", 7), ("t8", 8),
        ("t9", 9)], 10, []⟩ "tx").2.1).clients =
      [("t1", 1), ("t2", 2), ("t3", 3), ("t4", 4), ("t5", 5), ("t6", 6),
        ("t7", 7), ("t8", 8), ("t9", 9)] ++ [("tx", 10)] ∧
    (resolvePending (getClient ⟨("t0", 0) :: [("t1", 1), ("t2", 2),
        ("t3", 3), ("t4", 4), ("t5", 5), ("t6", 6), ("t7", 7), ("t8", 8),
        ("t9", 9)], 10, []⟩ "tx").2.1).clients.length = maxClients :=
  getClient_eviction_async "t0" 0
    [("t1", 1), ("t2", 2), ("t3", 3), ("t4", 4), ("t5", 5), ("t6", 6),
      ("t7", 7), ("t8", 8), ("t9", 9)] 10 "tx" (by decide) (by decide)
    (by decide)

/-- C7 counterexample: with an active tenant, an existing user and a
failing mail transport, `ForgotPasswordUseCase.execute` raises the
email-send error to the caller (the send is not wrapped in try/catch),
so the operation does NOT return success regardless of outcome. -/
theorem forgot_password_send_failure_cex :
    (forgotPasswordExecute (some acmeTenant)
        (fun e => if e = "alice@bank.com" then some activeUser else none)
        "alice@bank.com" "rtok" 1000 false).result
      = .error .emailSendError := by
  decide

/-- C7 (amended): for a well-formed email, forgotPassword returns success
with no side effect when the tenant is missing or inactive or the user is
not found; but when the user is found and the reset email fails to send,
the error propagates to the caller (after the user, with the fresh reset
token, was persisted). -/
theorem forgot_password_outcomes (tenantBySlug : Option Tenant)
    (findByEmail : String → Option UserEntity)
    (dtoEmail em genToken : String) (now : Nat) (sendOk : Bool)
    (hemail : Email.create dtoEmail = some em) :
    (tenantBySlug = none →
      forgotPasswordExecute tenantBySlug findByEmail dtoEmail genToken now
        sendOk = ⟨.ok (), []⟩) ∧
    (∀ tn, tenantBySlug = some tn → tn.status ≠ TenantStatus.ACTIVE →
      forgotPasswordExecute tenantBySlug findByEmail dtoEmail genToken now
        sendOk = ⟨.ok (), []⟩) ∧
    (∀ tn, tenantBySlug = some tn → tn.status = TenantStatus.ACTIVE →
      findByEmail em = none →
      forgotPasswordExecute tenantBySlug findByEmail dtoEmail genToken now
        sendOk = ⟨.ok (), []⟩) ∧
    (∀ tn u, tenantBySlug = some tn → tn.status = TenantStatus.ACTIVE →
      findByEmail em = some u → sendOk = false →
      forgotPasswordExecute tenantBySlug findByEmail dtoEmail genToken now
        sendOk =
        ⟨.error .emailSendError,
          [u.setPasswordResetToken genToken (now + 3600000) now]⟩) := by
  refine ⟨fun h => ?_, fun tn h hs => ?_, fun tn h hs hf => ?_,
    fun tn u h hs hf hsend => ?_⟩ <;>
    simp [forgotPasswordExecute, hemail, *]

/-- Witness for `forgot_password_outcomes`: missing tenant returns
success with no side effect. -/
theorem forgot_password_outcomes_witness :
    forgotPasswordExecute none (fun _ => none) "alice@bank.com" "rtok" 5
      true = ⟨.ok (), []⟩ :=
  (forgot_password_outcomes none (fun _ => none) "alice@bank.com"
    "alice@bank.com" "rtok" 5 true (by decide)).1 rfl

/-- Membership in a conditional singleton list. -/
theorem mem_if_singleton {c : Prop} [Decidable c] (m x : String) :
    x ∈ (if c then [m] else []) ↔ c ∧ x = m := by
  split <;> simp_all

/-- C9: `validateStrength` is valid iff the violation list is empty; each
of the five rules (length ≥ 8, an uppercase letter, a lowercase letter, a
digit, a special character) contributes its message to the list exactly
when it is violated — all violated rules are reported — and nothing else
is ever reported. -/
theorem validateStrength_reports_all_violations (p : String) :
    ((validateStrength p).isValid = true ↔ (validateStrength p).errors = []) ∧
    ("At least 8 characters" ∈ (validateStrength p).errors ↔
      p.length < 8) ∧
    ("At least one uppercase letter" ∈ (validateStrength p).errors ↔
      ¬ ∃ c ∈ p.data, 'A' ≤ c ∧ c ≤ 'Z') ∧
    ("At least one lowercase letter" ∈ (validateStrength p).errors ↔
      ¬ ∃ c ∈ p.data, 'a' ≤ c ∧ c ≤ 'z') ∧
    ("At least one number" ∈ (validateStrength p).errors ↔
      ¬ ∃ c ∈ p.data, '0' ≤ c ∧ c ≤ '9') ∧
    ("At least one special character" ∈ (validateStrength p).errors ↔
      ¬ ∃ c ∈ p.data, c ∈ specialChars) ∧
    (∀ e ∈ (validateStrength p).errors,
      e = "At least 8 characters" ∨ e = "At least one uppercase letter" ∨
      e = "At least one lowercase letter" ∨ e = "At least one number" ∨
      e = "At least one special character") := by
  have d12 : ("At least 8 characters" : String) ≠
    "At least one uppercase letter" := by decide
  have d13 : ("At least 8 characters" : String) ≠
    "At least one lowercase letter" := by decide
  have d14 : ("At least 8 characters" : String) ≠ "At least one number" := by
    decide
  have d15 : ("At least 8 characters" : String) ≠
    "At least one special character" := by decide
  have d23 : ("At least one uppercase letter" : String) ≠
    "At least one lowercase letter" := by decide
  have d24 : ("At least one uppercase letter" : String) ≠
    "At least one number" := by decide
  have d25 : ("At least one uppercase letter" : String) ≠
    "At least one special character" := by decide
  have d34 : ("At least one lowercase letter" : String) ≠
    "At least one number" := by decide
  have d35 : ("At least one lowercase letter" : String) ≠
    "At least one special character" := by decide
  have d45 : ("At least one number" : String) ≠
    "At least one special character" := by decide
  refine ⟨?_, ?_, ?_, ?_, ?_, ?_, ?_⟩
  · simp only [validateStrength]
    simp [List.length_eq_zero]
  · simp only [validateStrength, List.mem_append, mem_if_singleton]
    simp [d12, d13, d14, d15]
  · simp only [validateStrength, List.mem_append, mem_if_singleton]
    simp [d12.symm, d23, d24, d25, List.any_eq_true]
  · simp only [validateStrength, List.mem_append, mem_if_singleton]
    simp [d13.symm, d23.symm, d34, d35, List.any_eq_true]
  · simp only [validateStrength, List.mem_append, mem_if_singleton]
    simp [d14.symm, d24.symm, d34.symm, d45, List.any_eq_true]
  · simp only [validateStrength, List.mem_append, mem_if_singleton]
    simp [d15.symm, d25.symm, d35.symm, d45.symm, List.any_eq_true]
  · simp only [validateStrength, List.mem_append, mem_if_singleton]
    intro e he
    rcases he with (((⟨_, h⟩ | ⟨_, h⟩) | ⟨_, h⟩) | ⟨_, h⟩) | ⟨_, h⟩ <;>
      simp [h]

/-- C10: a reset via a valid token on a SUSPENDED or INACTIVE user
succeeds, persists exactly `u.resetPassword`, leaves the status
unchanged (the unlock step is a no-op off the LOCKED state) and touches
only the password hash, the reset-token fields, `failedLoginAttempts`
(and, vacuously here, `lockedUntil`) and `updatedAt`; every other field
is unchanged. -/
theorem resetPassword_preserves_inactive_suspended
    (tenantById : Option Tenant) (tn : Tenant)
    (findByResetToken : String → Option UserEntity) (hash : String → String)
    (tok pw : String) (now : Nat) (u : UserEntity)
    (hten : tenantById = some tn) (hact : tn.status = TenantStatus.ACTIVE)
    (hfind : findByResetToken tok = some u)
    (hvalid : u.isPasswordResetTokenValid tok now = true)
    (hpw : (validateStrength pw).isValid = true)
    (hstat : u.status = UserStatus.SUSPENDED ∨
      u.status = UserStatus.INACTIVE) :
    resetPasswordExecute tenantById findByResetToken hash tok pw now =
      ⟨.ok (), [u.resetPassword (hash pw) now]⟩ ∧
    (u.resetPassword (hash pw) now).status = u.status ∧
    (u.resetPassword (hash pw) now).lockedUntil = u.lockedUntil ∧
    (u.resetPassword (hash pw) now).password = hash pw ∧
    (u.resetPassword (hash pw) now).passwordResetToken = none ∧
    (u.resetPassword (hash pw) now).passwordResetExpires = none ∧
    (u.resetPassword (hash pw) now).failedLoginAttempts = 0 ∧
    (u.resetPassword (hash pw) now).id = u.id ∧
    (u.resetPassword (hash pw) now).email = u.email ∧
    (u.resetPassword (hash pw) now).firstName = u.firstName ∧
    (u.resetPassword (hash pw) now).lastName = u.lastName ∧
    (u.resetPassword (hash pw) now).phone = u.phone ∧
    (u.resetPassword (hash pw) now).role = u.role ∧
    (u.resetPassword (hash pw) now).emailVerified = u.emailVerified ∧
    (u.resetPassword (hash pw) now).emailVerificationToken =
      u.emailVerificationToken ∧
    (u.resetPassword (hash pw) now).emailVerificationExpires =
      u.emailVerificationExpires ∧
    (u.resetPassword (hash pw) now).lastLoginAt = u.lastLoginAt ∧
    (u.resetPassword (hash pw) now).createdAt = u.createdAt := by
  have hnl : u.status ≠ UserStatus.LOCKED := by
    rcases hstat with h | h <;> simp [h]
  refine ⟨?_, ?_⟩
  · simp [resetPasswordExecute, hten, hact, hfind, hvalid, hpw]
  · simp only [UserEntity.resetPassword, UserEntity.clearFailedAttempts,
      UserEntity.unlock]
    split_ifs with h1 <;> simp_all

/-- Witness for `resetPassword_preserves_inactive_suspended` at the
concrete suspended user with a valid reset token. -/
theorem resetPassword_preserves_inactive_suspended_witness :
    resetPasswordExecute (some acmeTenant)
        (fun t => if t = "rtok" then some suspendedUser else none)
        (fun p => "h:" ++ p) "rtok" "Aa1!aaaa" 1000 =
      ⟨.ok (), [suspendedUser.resetPassword ("h:" ++ "Aa1!aaaa") 1000]⟩ ∧
    (suspendedUser.resetPassword ("h:" ++ "Aa1!aaaa") 1000).status =
      suspendedUser.status ∧
    (suspendedUser.resetPassword ("h:" ++ "Aa1!aaaa") 1000).lockedUntil =
      suspendedUser.lockedUntil ∧
    (suspendedUser.resetPassword ("h:" ++ "Aa1!aaaa") 1000).password =
      (fun p => "h:" ++ p) "Aa1!aaaa" ∧
    (suspendedUser.resetPassword ("h:" ++ "Aa1!aaaa") 1000).passwordResetToken
      = none ∧
    (suspendedUser.resetPassword ("h:" ++ "Aa1!aaaa") 1000).passwordResetExpires
      = none ∧
    (suspendedUser.resetPassword ("h:" ++ "Aa1!aaaa") 1000).failedLoginAttempts
      = 0 ∧
    (suspendedUser.resetPassword ("h:" ++ "Aa1!aaaa") 1000).id =
      suspendedUser.id ∧
    (suspendedUser.resetPassword ("h:" ++ "Aa1!aaaa") 1000).email =
      suspendedUser.email ∧
    (suspendedUser.resetPassword ("h:" ++ "Aa1!aaaa") 1000).firstName =
      suspendedUser.firstName ∧
    (suspendedUser.resetPassword ("h:" ++ "Aa1!aaaa") 1000).lastName =
      suspendedUser.lastName ∧
    (suspendedUser.resetPassword ("h:" ++ "Aa1!aaaa") 1000).phone =
      suspendedUser.phone ∧
    (suspendedUser.resetPassword ("h:" ++ "Aa1!aaaa") 1000).role =
      suspendedUser.role ∧
    (suspendedUser.resetPassword ("h:" ++ "Aa1!aaaa") 1000).emailVerified =
      suspendedUser.emailVerified ∧
    (suspendedUser.resetPassword ("h:" ++ "Aa1!aaaa") 1000).emailVerificationToken
      = suspendedUser.emailVerificationToken ∧
    (suspendedUser.resetPassword ("h:" ++ "Aa1!aaaa") 1000).emailVerificationExpires
      = suspendedUser.emailVerificationExpires ∧
    (suspendedUser.resetPassword ("h:" ++ "Aa1!aaaa") 1000).lastLoginAt =
      suspendedUser.lastLoginAt ∧
    (suspendedUser.resetPassword ("h:" ++ "Aa1!aaaa") 1000).createdAt =
      suspendedUser.createdAt :=
  resetPassword_preserves_inactive_suspended (some acmeTenant) acmeTenant
    (fun t => if t = "rtok" then some suspendedUser else none)
    (fun p => "h:" ++ p) "rtok" "Aa1!aaaa" 1000 suspendedUser rfl rfl
    (by decide) (by decide) (by decide) (Or.inl (by decide))

end KarianBank
